import Mathlib

/-!
Verification of the Hakuna Home Assistant integration core:
the API gateway (`custom_components/hakuna/api.py`), the refresh
aggregator (`custom_components/hakuna/coordinator.py`) and the button
availability predicate (`custom_components/hakuna/button.py`), shallowly
embedded in Lean.  JSON payloads are modelled by `JsonVal`; a Python value
that may be `None` is modelled by `Option JsonVal`, with JSON `null`
collapsing to `none` exactly as a parsed `null` body collapses to Python
`None`.
-/

/-- A JSON value as produced by `response.json()`. -/
inductive JsonVal where
  | null
  | bool (b : Bool)
  | num (n : Int)
  | str (s : String)
  | arr (elems : List JsonVal)
  | obj (fields : List (String × JsonVal))

/-- Python truthiness of a JSON value: `None`, `False`, `0`, `""`, `[]`
and `{}` are falsy, everything else is truthy. -/
def truthy : JsonVal → Bool
  | .null => false
  | .bool b => b
  | .num n => n != 0
  | .str s => s != ""
  | .arr l => !l.isEmpty
  | .obj l => !l.isEmpty

/-- `d.get(key)` on a JSON object: the stored value, or `null` (Python
`None`) when the key is absent. -/
def jget (v : JsonVal) (key : String) : JsonVal :=
  match v with
  | .obj fields =>
    match fields.find? (fun p => p.1 == key) with
    | some p => p.2
    | none => .null
  | _ => .null

/-- Is this JSON value the `null` value (Python `None`)? -/
def isNull : JsonVal → Bool
  | .null => true
  | _ => false

/-- The Python value of a parsed JSON body: JSON `null` parses to Python
`None`, anything else to itself. -/
def jsonToOpt (v : JsonVal) : Option JsonVal :=
  match v with
  | .null => none
  | v => some v

/-- The error taxonomy of `api.py`: `HakunaAuthError` and
`HakunaRateLimitError` are subclasses of `HakunaApiError`; an
`except HakunaApiError` clause therefore catches all three. -/
inductive HakunaError where
  | auth (msg : String)
  | rateLimit (msg : String)
  | api (msg : String)

/-- `str(err)` for a Hakuna error. -/
def HakunaError.message : HakunaError → String
  | .auth m => m
  | .rateLimit m => m
  | .api m => m

/-- What the network produced for one request: either a transport-level
failure (`aiohttp.ClientError`) or an HTTP response with its status, its
optional `Retry-After` header, its body text and its parsed JSON body. -/
inductive ReqOutcome where
  | transportError (cause : String)
  | response (status : Nat) (retryAfter : Option String)
      (text : String) (json : JsonVal)

/-- `HakunaApiClient._request`: classify the outcome of one HTTP request.
401 raises `HakunaAuthError`; 429 raises `HakunaRateLimitError` carrying
the `Retry-After` header ("unknown" when absent); 404 returns `None`;
any other status >= 400 raises `HakunaApiError` with status and body
text; 204 returns `None`; otherwise the parsed JSON body is returned;
a transport failure raises `HakunaApiError` wrapping the cause. -/
def hakunaRequest (o : ReqOutcome) : Except HakunaError (Option JsonVal) :=
  match o with
  | .transportError cause => .error (.api ("Connection error: " ++ cause))
  | .response status retryAfter text json =>
    if status == 401 then
      .error (.auth "Invalid API token")
    else if status == 429 then
      .error (.rateLimit ("Rate limit exceeded. Retry after "
        ++ retryAfter.getD "unknown" ++ " seconds"))
    else if status == 404 then
      .ok none
    else if status ≥ 400 then
      .error (.api ("API error " ++ toString status ++ ": " ++ text))
    else if status == 204 then
      .ok none
    else
      .ok (jsonToOpt json)

/-- `get_timer`'s post-processing of the `_request` result:
`if result and result.get("date") is None: return None` — a truthy
result whose `date` field is `null` or absent becomes `None`. -/
def getTimerResult (result : Option JsonVal) : Option JsonVal :=
  match result with
  | none => none
  | some r => if truthy r && isNull (jget r "date") then none else some r

/-- `HakunaApiClient.get_timer`: issue `GET /timer` and post-process. -/
def getTimer (o : ReqOutcome) : Except HakunaError (Option JsonVal) :=
  match hakunaRequest o with
  | .error e => .error e
  | .ok result => .ok (getTimerResult result)

/-- `result if result else []` on the result of `_request` for the list
endpoints (which answer with a JSON array or no content): a missing or
empty result becomes the empty list. -/
def listResult (result : Option JsonVal) : List JsonVal :=
  match result with
  | some (.arr l) => l
  | _ => []

/-- `HakunaApiClient.get_users`. -/
def getUsers (o : ReqOutcome) : Except HakunaError (List JsonVal) :=
  (hakunaRequest o).map listResult

/-- `HakunaApiClient.get_presence`. -/
def getPresence (o : ReqOutcome) : Except HakunaError (List JsonVal) :=
  (hakunaRequest o).map listResult

/-- `HakunaApiClient.get_projects`. -/
def getProjects (o : ReqOutcome) : Except HakunaError (List JsonVal) :=
  (hakunaRequest o).map listResult

/-- `HakunaApiClient.get_tasks`. -/
def getTasks (o : ReqOutcome) : Except HakunaError (List JsonVal) :=
  (hakunaRequest o).map listResult

/-- `HakunaApiClient.get_absence_types`. -/
def getAbsenceTypes (o : ReqOutcome) : Except HakunaError (List JsonVal) :=
  (hakunaRequest o).map listResult

/-- `HakunaApiClient.get_overview`: `_request` on `GET /overview`,
returned unprocessed. -/
def getOverview (o : ReqOutcome) : Except HakunaError (Option JsonVal) :=
  hakunaRequest o

/-- A Python `datetime.date`. -/
structure PyDate where
  year : Nat
  month : Nat
  day : Nat

/-- Zero-pad to two digits. -/
def pad2 (n : Nat) : String :=
  if n < 10 then "0" ++ toString n else toString n

/-- `date.isoformat()`, `YYYY-MM-DD`. -/
def PyDate.isoformat (d : PyDate) : String :=
  (if d.year < 10 then "000"
   else if d.year < 100 then "00"
   else if d.year < 1000 then "0"
   else "") ++ toString d.year ++ "-" ++ pad2 d.month ++ "-" ++ pad2 d.day

/-- A `date | str` argument as `get_time_entries` accepts it. -/
inductive DateOrStr where
  | date (d : PyDate)
  | str (s : String)

/-- The `isinstance(x, date)` conversion applied by `get_time_entries`:
a `date` is replaced by its isoformat, a string is kept. -/
def DateOrStr.toParam : DateOrStr → String
  | .date d => d.isoformat
  | .str s => s

/-- The query parameters `get_time_entries` sends: `start_date` converted
if it is a `date`; `end_date` defaulting to the (converted) start date
when omitted, else converted if it is a `date`; `user_id` appended only
when given. -/
def getTimeEntriesParams (start_date : DateOrStr) (end_date : Option DateOrStr)
    (user_id : Option Int) : List (String × String) :=
  let s := start_date.toParam
  let e := match end_date with
    | none => s
    | some ed => ed.toParam
  [("start_date", s), ("end_date", e)]
    ++ (match user_id with
        | none => []
        | some u => [("user_id", toString u)])

/-- `HakunaApiClient.get_time_entries`: build the query, issue
`GET /time_entries` (the network is abstracted as a function from the
query parameters to the request outcome) and default a missing or empty
result to the empty list. -/
def getTimeEntries (fetch : List (String × String) → ReqOutcome)
    (start_date : DateOrStr) (end_date : Option DateOrStr)
    (user_id : Option Int) : Except HakunaError (List JsonVal) :=
  (hakunaRequest (fetch (getTimeEntriesParams start_date end_date user_id))).map
    listResult

/-- The query parameters `get_absences` sends: the given year, or the
current year (`datetime.now().year`, passed in explicitly) when omitted;
`user_id` appended only when given. -/
def getAbsencesParams (nowYear : Int) (year : Option Int)
    (user_id : Option Int) : List (String × String) :=
  [("year", toString (year.getD nowYear))]
    ++ (match user_id with
        | none => []
        | some u => [("user_id", toString u)])

/-- `HakunaApiClient.get_absences`. -/
def getAbsences (fetch : List (String × String) → ReqOutcome)
    (nowYear : Int) (year : Option Int) (user_id : Option Int) :
    Except HakunaError (List JsonVal) :=
  (hakunaRequest (fetch (getAbsencesParams nowYear year user_id))).map listResult

/-- The first loop of `_async_update_data`'s default-task derivation:
scan for the first task with `task.get("default")` truthy and
`task.get("archived")` falsy, and break with its `task.get("id")`
(which is Python `None` when the id is absent or null). -/
def firstDefaultLoop (tasks : List JsonVal) : Option JsonVal :=
  match tasks with
  | [] => none
  | t :: rest =>
    if truthy (jget t "default") && !truthy (jget t "archived") then
      jsonToOpt (jget t "id")
    else
      firstDefaultLoop rest

/-- The fallback loop: scan for the first task with `task.get("archived")`
falsy and break with its `task.get("id")`. -/
def firstNonArchivedLoop (tasks : List JsonVal) : Option JsonVal :=
  match tasks with
  | [] => none
  | t :: rest =>
    if !truthy (jget t "archived") then
      jsonToOpt (jget t "id")
    else
      firstNonArchivedLoop rest

/-- `_async_update_data`'s `default_task_id` derivation: the first
default non-archived task's id, and when that leaves `None` (and the
task list is non-empty) the first non-archived task's id. -/
def defaultTaskId (tasks : List JsonVal) : Option JsonVal :=
  match firstDefaultLoop tasks with
  | some v => some v
  | none => if tasks.isEmpty then none else firstNonArchivedLoop tasks

/-- The published aggregate of one refresh cycle (the dict returned by
`_async_update_data`). -/
structure Snapshot where
  timer : Option JsonVal
  overview : Option JsonVal
  presence : List JsonVal
  users : List JsonVal
  tasks : List JsonVal
  default_task_id : Option JsonVal
  timer_running : Bool

/-- The `UpdateFailed` exception raised by `_async_update_data`, carrying
its message. -/
inductive UpdateFailed where
  | updateFailed (msg : String)

/-- The outcomes of the five fetches a refresh cycle performs. -/
structure FetchResults where
  timer : Except HakunaError (Option JsonVal)
  overview : Except HakunaError (Option JsonVal)
  presence : Except HakunaError (List JsonVal)
  users : Except HakunaError (List JsonVal)
  tasks : Except HakunaError (List JsonVal)

/-- The local `try/except HakunaApiError` wrapper around a best-effort
fetch in `_async_update_data`: any Hakuna error defaults the field to
the empty list. -/
def bestEffortList (r : Except HakunaError (List JsonVal)) : List JsonVal :=
  match r with
  | .ok l => l
  | .error _ => []

/-- The outer exception handler of `_async_update_data`:
`HakunaAuthError` becomes `UpdateFailed("Authentication failed: ...")`,
any other `HakunaApiError` becomes `UpdateFailed("Error fetching data: ...")`. -/
def classifyUpdateError (e : HakunaError) : UpdateFailed :=
  match e with
  | .auth _ => .updateFailed ("Authentication failed: " ++ e.message)
  | _ => .updateFailed ("Error fetching data: " ++ e.message)

/-- `HakunaDataUpdateCoordinator._async_update_data`: fetch timer and
overview (any error propagates to the outer handler, aborting the
cycle), fetch presence, users and tasks each inside a local
`except HakunaApiError` that defaults the field to `[]`, derive
`default_task_id` and `timer_running`, and return the new snapshot. -/
def asyncUpdateData (f : FetchResults) : Except UpdateFailed Snapshot :=
  match f.timer with
  | .error e => .error (classifyUpdateError e)
  | .ok timer =>
    match f.overview with
    | .error e => .error (classifyUpdateError e)
    | .ok overview =>
      let presence := bestEffortList f.presence
      let users := bestEffortList f.users
      let tasks := bestEffortList f.tasks
      .ok {
        timer := timer
        overview := overview
        presence := presence
        users := users
        tasks := tasks
        default_task_id := defaultTaskId tasks
        timer_running := timer.isSome
      }

/-- Modelled from the spec: the host's `DataUpdateCoordinator` (external
framework code, not in this repository) publishes the snapshot returned
by `_async_update_data` on success and retains the previously published
snapshot when the update raises `UpdateFailed` (§4.2: "any error ...
aborts the cycle, and the previous Snapshot is retained unchanged"). -/
def publishStep (prev : Option Snapshot) (f : FetchResults) : Option Snapshot :=
  match asyncUpdateData f with
  | .ok s => some s
  | .error _ => prev

/-- `HakunaButton.available`: no data yet means unavailable; otherwise
start is available iff no timer runs, stop and cancel iff one does, and
every other key (refresh) is always available. -/
def buttonAvailable (data : Option Snapshot) (key : String) : Bool :=
  match data with
  | none => false
  | some d =>
    if key == "start_timer" then
      !d.timer_running
    else if key == "stop_timer" || key == "cancel_timer" then
      d.timer_running
    else
      true

/-- A task object `{"id": id, "default": default, "archived": archived}`
as the service reports it. -/
def mkTask (id : Int) (default archived : Bool) : JsonVal :=
  .obj [("id", .num id), ("default", .bool default), ("archived", .bool archived)]

/-- The spec's selection policy (§3), written from its words for
comparison with `defaultTaskId`: the id of the first task whose default
flag is true and archived flag is false, else the id of the first task
whose archived flag is false, else absent. -/
def specDefaultTaskId (ts : List (Int × Bool × Bool)) : Option JsonVal :=
  match ts.find? (fun t => t.2.1 && !t.2.2) with
  | some t => some (.num t.1)
  | none =>
    match ts.find? (fun t => !t.2.2) with
    | some t => some (.num t.1)
    | none => none

theorem truthy_bool (b : Bool) : truthy (.bool b) = b := rfl

theorem jget_mkTask_id (i : Int) (d a : Bool) :
    jget (mkTask i d a) "id" = .num i := rfl

theorem jget_mkTask_default (i : Int) (d a : Bool) :
    jget (mkTask i d a) "default" = .bool d := rfl

theorem jget_mkTask_archived (i : Int) (d a : Bool) :
    jget (mkTask i d a) "archived" = .bool a := rfl

theorem firstDefaultLoop_map (ts : List (Int × Bool × Bool)) :
    firstDefaultLoop (ts.map (fun t => mkTask t.1 t.2.1 t.2.2))
      = (ts.find? (fun t => t.2.1 && !t.2.2)).map (fun t => JsonVal.num t.1) := by
  induction ts with
  | nil => rfl
  | cons t rest ih =>
    rcases t with ⟨i, d, a⟩
    by_cases h : (d && !a) = true
    · simp [firstDefaultLoop, jget_mkTask_default, jget_mkTask_archived,
        truthy_bool, jget_mkTask_id, List.find?_cons, h, jsonToOpt]
    · simp [firstDefaultLoop, jget_mkTask_default, jget_mkTask_archived,
        truthy_bool, List.find?_cons, h, ih]

theorem firstNonArchivedLoop_map (ts : List (Int × Bool × Bool)) :
    firstNonArchivedLoop (ts.map (fun t => mkTask t.1 t.2.1 t.2.2))
      = (ts.find? (fun t => !t.2.2)).map (fun t => JsonVal.num t.1) := by
  induction ts with
  | nil => rfl
  | cons t rest ih =>
    rcases t with ⟨i, d, a⟩
    by_cases h : (!a) = true
    · simp [firstNonArchivedLoop, jget_mkTask_archived, truthy_bool,
        jget_mkTask_id, List.find?_cons, h, jsonToOpt]
    · simp [firstNonArchivedLoop, jget_mkTask_archived, truthy_bool,
        List.find?_cons, h, ih]

/-- C1: every snapshot a refresh cycle publishes has `timer_running`
equal to the presence of the `timer` field; it is derived during
aggregation from the fetched timer, never fetched from the service. -/
theorem snapshot_timer_running_invariant (f : FetchResults) (s : Snapshot)
    (h : asyncUpdateData f = .ok s) : s.timer_running = s.timer.isSome := by
  rcases htm : f.timer with e | timer <;>
    rcases hov : f.overview with e2 | ov <;>
      simp only [asyncUpdateData, htm, hov] at h
  · exact absurd h (by simp)
  · exact absurd h (by simp)
  · exact absurd h (by simp)
  · simp only [Except.ok.injEq] at h
    subst h
    rfl

/-- Witness for C1 at a concrete cycle whose fetches all succeed. -/
theorem snapshot_timer_running_invariant_witness :
    (Snapshot.mk none none [] [] [] none false).timer_running
      = (Snapshot.mk none none [] [] [] none false).timer.isSome :=
  snapshot_timer_running_invariant
    ⟨Except.ok none, Except.ok none, Except.ok [], Except.ok [], Except.ok []⟩
    (Snapshot.mk none none [] [] [] none false) rfl

/-- C2: over task objects `{id, default, archived}`, the derived
`default_task_id` is the id of the first task with `default` true and
`archived` false, else the id of the first non-archived task, else
absent; in particular it is 1 for `[{id:1,default:true,archived:false}]`
and absent for an empty task list. -/
theorem default_task_id_selection :
    (∀ ts : List (Int × Bool × Bool),
      defaultTaskId (ts.map (fun t => mkTask t.1 t.2.1 t.2.2))
        = specDefaultTaskId ts)
    ∧ defaultTaskId [mkTask 1 true false] = some (.num 1)
    ∧ defaultTaskId [] = none := by
  refine ⟨?_, rfl, rfl⟩
  intro ts
  rw [defaultTaskId, specDefaultTaskId, firstDefaultLoop_map,
    firstNonArchivedLoop_map]
  cases h1 : ts.find? (fun t => t.2.1 && !t.2.2) with
  | some t => rfl
  | none =>
    cases ts with
    | nil => rfl
    | cons t rest =>
      simp only [Option.map_none', List.map_cons, List.isEmpty_cons,
        Bool.false_eq_true, if_false]
      cases h2 : (t :: rest).find? (fun t => !t.2.2) <;> rfl

/-- C3 counterexample: on the spec's example input the code does not
select task 3. -/
theorem default_task_fallback_counterexample :
    defaultTaskId
        [mkTask 1 false false, mkTask 2 true true, mkTask 3 false false]
      ≠ some (JsonVal.num 3) := by
  intro h
  have h1 : defaultTaskId
      [mkTask 1 false false, mkTask 2 true true, mkTask 3 false false]
      = some (JsonVal.num 1) := rfl
  rw [h1] at h
  injection h with h2
  injection h2 with h3
  exact absurd h3 (by decide)

/-- C3 amended: for that input the derived `default_task_id` is 1 — the
archived default task 2 is skipped, and the fallback selects the first
non-archived task in list order, which is task 1. -/
theorem default_task_fallback_selects_first :
    defaultTaskId
        [mkTask 1 false false, mkTask 2 true true, mkTask 3 false false]
      = some (JsonVal.num 1) := rfl

/-- C4: `_request` classifies every outcome: 401 raises the auth error;
429 raises the rate-limit error carrying the supplied Retry-After value;
404 on the timer endpoint is no error and yields an absent timer; any
other status >= 400 raises the generic error with status and body text;
204 yields an empty result; any other 2xx yields the parsed JSON body;
a transport failure raises the generic error wrapping the cause. -/
theorem request_status_classification :
    (∀ ra t j, hakunaRequest (.response 401 ra t j)
        = .error (.auth "Invalid API token"))
    ∧ (∀ r t j, hakunaRequest (.response 429 (some r) t j)
        = .error (.rateLimit
            ("Rate limit exceeded. Retry after " ++ r ++ " seconds")))
    ∧ (∀ ra t j, hakunaRequest (.response 404 ra t j) = .ok none
        ∧ getTimer (.response 404 ra t j) = .ok none)
    ∧ (∀ s ra t j, 400 ≤ s → s ≠ 401 → s ≠ 429 → s ≠ 404 →
        hakunaRequest (.response s ra t j)
          = .error (.api ("API error " ++ toString s ++ ": " ++ t)))
    ∧ (∀ ra t j, hakunaRequest (.response 204 ra t j) = .ok none)
    ∧ (∀ s ra t j, 200 ≤ s → s < 300 → s ≠ 204 →
        hakunaRequest (.response s ra t j) = .ok (jsonToOpt j))
    ∧ (∀ c, hakunaRequest (.transportError c)
        = .error (.api ("Connection error: " ++ c))) := by
  refine ⟨fun ra t j => rfl, fun r t j => rfl, fun ra t j => ⟨rfl, rfl⟩,
    ?_, fun ra t j => rfl, ?_, fun c => rfl⟩
  · intro s ra t j h400 h401 h429 h404
    have e1 : (s == 401) = false := by simpa using h401
    have e2 : (s == 429) = false := by simpa using h429
    have e3 : (s == 404) = false := by simpa using h404
    simp [hakunaRequest, e1, e2, e3, ge_iff_le, h400]
  · intro s ra t j h200 h300 h204
    have e1 : (s == 401) = false := by simp; omega
    have e2 : (s == 429) = false := by simp; omega
    have e3 : (s == 404) = false := by simp; omega
    have e4 : ¬ (400 ≤ s) := by omega
    have e5 : (s == 204) = false := by simpa using h204
    simp [hakunaRequest, e1, e2, e3, ge_iff_le, e4, e5]

/-- Witness for C4 at status 500 and at status 200. -/
theorem request_status_classification_witness :
    hakunaRequest (.response 500 none "boom" .null)
      = .error (.api ("API error " ++ toString 500 ++ ": " ++ "boom"))
    ∧ hakunaRequest (.response 200 none "" (.bool true))
      = .ok (jsonToOpt (.bool true)) :=
  ⟨request_status_classification.2.2.2.1 500 none "boom" .null
      (by decide) (by decide) (by decide) (by decide),
    request_status_classification.2.2.2.2.2.1 200 none "" (.bool true)
      (by decide) (by decide) (by decide)⟩

/-- C5: any critical fetch error (timer or overview) makes
`_async_update_data` raise `UpdateFailed` — prefixed "Authentication
failed" for an auth error and "Error fetching data" otherwise — so no
new snapshot is produced and the previously published snapshot is
retained. -/
theorem critical_fetch_failure_aborts :
    (∀ (f : FetchResults) (e : HakunaError), f.timer = .error e →
        asyncUpdateData f = .error (classifyUpdateError e))
    ∧ (∀ (f : FetchResults) (t : Option JsonVal) (e : HakunaError),
        f.timer = .ok t → f.overview = .error e →
        asyncUpdateData f = .error (classifyUpdateError e))
    ∧ (∀ m, classifyUpdateError (.auth m)
        = .updateFailed ("Authentication failed: " ++ m))
    ∧ (∀ m, classifyUpdateError (.rateLimit m)
        = .updateFailed ("Error fetching data: " ++ m))
    ∧ (∀ m, classifyUpdateError (.api m)
        = .updateFailed ("Error fetching data: " ++ m))
    ∧ (∀ (f : FetchResults) (prev : Option Snapshot) (u : UpdateFailed),
        asyncUpdateData f = .error u → publishStep prev f = prev) := by
  refine ⟨?_, ?_, fun m => rfl, fun m => rfl, fun m => rfl, ?_⟩
  · intro f e h
    simp only [asyncUpdateData, h]
  · intro f t e ht h
    simp only [asyncUpdateData, ht, h]
  · intro f prev u h
    simp only [publishStep, h]

/-- Witness for C5: a 401 on the overview fetch raises the auth failure
and the previous snapshot (here one with a running timer) survives. -/
theorem critical_fetch_failure_aborts_witness :
    asyncUpdateData
        ⟨Except.ok none, Except.error (.auth "Invalid API token"),
          Except.ok [], Except.ok [], Except.ok []⟩
      = .error (classifyUpdateError (.auth "Invalid API token"))
    ∧ publishStep (some (Snapshot.mk none none [] [] [] none true))
        ⟨Except.ok none, Except.error (.auth "Invalid API token"),
          Except.ok [], Except.ok [], Except.ok []⟩
      = some (Snapshot.mk none none [] [] [] none true) :=
  ⟨critical_fetch_failure_aborts.2.1 _ none (.auth "Invalid API token") rfl rfl,
    critical_fetch_failure_aborts.2.2.2.2.2 _ _ _
      (critical_fetch_failure_aborts.2.1 _ none (.auth "Invalid API token")
        rfl rfl)⟩

/-- C6: when the critical fetches succeed, the cycle completes and
publishes a snapshot whose timer and overview are the freshly fetched
values and whose presence, users and tasks are the best-effort results,
each of which is the empty list whenever its fetch failed — the previous
snapshot's values are never carried forward. -/
theorem best_effort_failure_defaults_empty (f : FetchResults)
    (t o : Option JsonVal) (htm : f.timer = .ok t) (hov : f.overview = .ok o) :
    asyncUpdateData f = .ok
        (Snapshot.mk t o (bestEffortList f.presence) (bestEffortList f.users)
          (bestEffortList f.tasks) (defaultTaskId (bestEffortList f.tasks))
          t.isSome)
    ∧ (∀ prev, publishStep prev f = some
        (Snapshot.mk t o (bestEffortList f.presence) (bestEffortList f.users)
          (bestEffortList f.tasks) (defaultTaskId (bestEffortList f.tasks))
          t.isSome))
    ∧ (∀ e, f.presence = .error e → bestEffortList f.presence = [])
    ∧ (∀ e, f.users = .error e → bestEffortList f.users = [])
    ∧ (∀ e, f.tasks = .error e → bestEffortList f.tasks = []) := by
  have h1 : asyncUpdateData f = .ok
      (Snapshot.mk t o (bestEffortList f.presence) (bestEffortList f.users)
        (bestEffortList f.tasks) (defaultTaskId (bestEffortList f.tasks))
        t.isSome) := by
    simp only [asyncUpdateData, htm, hov]
  refine ⟨h1, fun prev => ?_, fun e h => ?_, fun e h => ?_, fun e h => ?_⟩
  · simp only [publishStep, h1]
  · rw [h]
    rfl
  · rw [h]
    rfl
  · rw [h]
    rfl

/-- Witness for C6: a transport error on the presence fetch during an
otherwise successful cycle still publishes a snapshot with empty
presence and fresh timer and overview. -/
theorem best_effort_failure_defaults_empty_witness :
    asyncUpdateData
        ⟨Except.ok (some (.num 1)), Except.ok (some (.num 2)),
          Except.error (.api "Connection error: boom"), Except.ok [],
          Except.ok []⟩
      = .ok (Snapshot.mk (some (.num 1)) (some (.num 2)) [] [] [] none true)
    ∧ publishStep none
        ⟨Except.ok (some (.num 1)), Except.ok (some (.num 2)),
          Except.error (.api "Connection error: boom"), Except.ok [],
          Except.ok []⟩
      = some (Snapshot.mk (some (.num 1)) (some (.num 2)) [] [] [] none true)
    ∧ bestEffortList
        (Except.error (HakunaError.api "Connection error: boom")) = [] :=
  ⟨(best_effort_failure_defaults_empty _ _ _ rfl rfl).1,
    (best_effort_failure_defaults_empty _ _ _ rfl rfl).2.1 none,
    (best_effort_failure_defaults_empty
        ⟨Except.ok (some (.num 1)), Except.ok (some (.num 2)),
          Except.error (.api "Connection error: boom"), Except.ok [],
          Except.ok []⟩ _ _ rfl rfl).2.2.1
      (HakunaError.api "Connection error: boom") rfl⟩

/-- C7: omitting the end date makes `get_time_entries` send the same
query, and return the same result, as passing the start date as the end
date. -/
theorem time_entries_end_date_defaults :
    (∀ (D : DateOrStr) (uid : Option Int),
      getTimeEntriesParams D none uid = getTimeEntriesParams D (some D) uid)
    ∧ (∀ (fetch : List (String × String) → ReqOutcome) (D : DateOrStr)
        (uid : Option Int),
      getTimeEntries fetch D none uid = getTimeEntries fetch D (some D) uid) :=
  ⟨fun _ _ => rfl, fun _ _ _ => rfl⟩

/-- C8: every list-returning operation yields the empty list — never an
absent value — when the service reports no content, whether by a 204 or
by an empty array body. -/
theorem list_operations_empty_on_no_content :
    (∀ ra t j, getUsers (.response 204 ra t j) = .ok [])
    ∧ (∀ ra t, getUsers (.response 200 ra t (.arr [])) = .ok [])
    ∧ (∀ ra t j, getPresence (.response 204 ra t j) = .ok [])
    ∧ (∀ ra t, getPresence (.response 200 ra t (.arr [])) = .ok [])
    ∧ (∀ ra t j, getProjects (.response 204 ra t j) = .ok [])
    ∧ (∀ ra t, getProjects (.response 200 ra t (.arr [])) = .ok [])
    ∧ (∀ ra t j, getTasks (.response 204 ra t j) = .ok [])
    ∧ (∀ ra t, getTasks (.response 200 ra t (.arr [])) = .ok [])
    ∧ (∀ ra t j, getAbsenceTypes (.response 204 ra t j) = .ok [])
    ∧ (∀ ra t, getAbsenceTypes (.response 200 ra t (.arr [])) = .ok [])
    ∧ (∀ ra t j D ed uid,
        getTimeEntries (fun _ => .response 204 ra t j) D ed uid = .ok [])
    ∧ (∀ ra t D ed uid,
        getTimeEntries (fun _ => .response 200 ra t (.arr [])) D ed uid
          = .ok [])
    ∧ (∀ ra t j ny y uid,
        getAbsences (fun _ => .response 204 ra t j) ny y uid = .ok [])
    ∧ (∀ ra t ny y uid,
        getAbsences (fun _ => .response 200 ra t (.arr [])) ny y uid
          = .ok []) :=
  ⟨fun _ _ _ => rfl, fun _ _ => rfl, fun _ _ _ => rfl, fun _ _ => rfl,
    fun _ _ _ => rfl, fun _ _ => rfl, fun _ _ _ => rfl, fun _ _ => rfl,
    fun _ _ _ => rfl, fun _ _ => rfl, fun _ _ _ _ _ _ => rfl,
    fun _ _ _ _ _ => rfl, fun _ _ _ _ _ _ => rfl, fun _ _ _ _ _ => rfl⟩

/-- C9 counterexample: a 200 response whose body is the empty object is
returned by `get_timer` as a present timer although its date field is
null/absent — the empty object is falsy, so the null-date check is
skipped. -/
theorem timer_present_null_date_counterexample :
    getTimer (.response 200 none "" (.obj [])) = .ok (some (.obj []))
    ∧ isNull (jget (JsonVal.obj []) "date") = true :=
  ⟨rfl, rfl⟩

/-- C9 amended: `get_timer` is absent on a 404 and on any truthy 2xx
body whose date field is null or missing; a timer reported present
either has a non-null date field or is a falsy (empty-object) body. -/
theorem timer_absent_on_null_date :
    (∀ ra t j, getTimer (.response 404 ra t j) = .ok none)
    ∧ (∀ o r, hakunaRequest o = .ok (some r) → truthy r = true →
        isNull (jget r "date") = true → getTimer o = .ok none)
    ∧ (∀ o r, getTimer o = .ok (some r) →
        truthy r = false ∨ isNull (jget r "date") = false) := by
  refine ⟨fun ra t j => rfl, ?_, ?_⟩
  · intro o r h ht hn
    simp only [getTimer, h, getTimerResult, ht, hn, Bool.and_self, if_true]
  · intro o r h
    unfold getTimer at h
    rcases hr : hakunaRequest o with e | val
    · rw [hr] at h
      exact absurd h (by simp)
    · rw [hr] at h
      simp only [Except.ok.injEq] at h
      rcases val with _ | v
      · exact absurd h (by simp [getTimerResult])
      · simp only [getTimerResult] at h
        by_cases hc : (truthy v && isNull (jget v "date")) = true
        · rw [if_pos hc] at h
          exact absurd h (by simp)
        · rw [if_neg hc] at h
          simp only [Option.some.injEq] at h
          subst h
          cases hT : truthy v with
          | false => exact Or.inl rfl
          | true =>
            cases hN : isNull (jget v "date") with
            | false => exact Or.inr rfl
            | true => exact absurd (by simp [hT, hN]) hc

/-- Witness for C9's amended claim: a 200 response carrying
`{"date": null}` yields an absent timer. -/
theorem timer_absent_on_null_date_witness :
    getTimer (.response 200 none "" (.obj [("date", JsonVal.null)]))
      = .ok none :=
  timer_absent_on_null_date.2.1 _ (.obj [("date", JsonVal.null)]) rfl rfl rfl

/-- C10: with no snapshot published yet every button is unavailable;
with a snapshot, start is available iff the timer is not running, stop
and cancel iff it is, and refresh always. -/
theorem button_availability :
    (buttonAvailable none "start_timer" = false
      ∧ buttonAvailable none "stop_timer" = false
      ∧ buttonAvailable none "cancel_timer" = false
      ∧ buttonAvailable none "refresh" = false)
    ∧ (∀ d : Snapshot,
        buttonAvailable (some d) "start_timer" = !d.timer_running)
    ∧ (∀ d : Snapshot,
        buttonAvailable (some d) "stop_timer" = d.timer_running)
    ∧ (∀ d : Snapshot,
        buttonAvailable (some d) "cancel_timer" = d.timer_running)
    ∧ (∀ d : Snapshot, buttonAvailable (some d) "refresh" = true) :=
  ⟨⟨rfl, rfl, rfl, rfl⟩, fun _ => rfl, fun _ => rfl, fun _ => rfl,
    fun _ => rfl⟩
